import Mathlib

/-!
Verification of the transaction-reconciliation scripts.

The source is a Python `TransactionManager` class plus a shared decoding
utility (`utils/format_redis_json.py`).  We embed the data model and the
operations shallowly:

* the Redis store is a `RedisState`: an association list from key strings to
  flat field-mappings whose keys are byte strings and whose values are byte
  strings or other scalars (`RVal`);
* each Python method becomes a Lean function; a method that can fall off the
  end (returning Python `None`) or catch an exception is given an `Option`
  result, with `none` standing for Python `None` and exception-aborts modelled
  in the `Option` monad;
* `pandas` dataframes are lists of rows restricted to the two columns each
  processing routine extracts; `drop_duplicates` keeps the first occurrence of
  each row, preserving order, as pandas does;
* Python string operations (`strip`, `startswith`, splitting, digit parsing)
  are embedded as structural functions over character lists so that every
  definition evaluates inside the kernel;
* `datetime.strptime` with the fixed formats used by the code is embedded as an
  explicit parser over strings, and `.date()` keeps only the calendar date.
-/

set_option linter.unusedVariables false

/-! ### Python string primitives -/

/-- Python whitespace as stripped by `str.strip()`: space, tab, newline,
carriage return, vertical tab, form feed. -/
def isPySpace (c : Char) : Bool :=
  c.toNat == 32 || c.toNat == 9 || c.toNat == 10 || c.toNat == 13 ||
    c.toNat == 11 || c.toNat == 12

/-- Drop leading Python whitespace from a character list. -/
def dropLeadingSpace : List Char → List Char
  | [] => []
  | c :: cs => if isPySpace c then dropLeadingSpace cs else c :: cs

/-- Python `str.strip()`: remove leading and trailing whitespace. -/
def pyStrip (s : String) : String :=
  ((dropLeadingSpace ((dropLeadingSpace s.toList).reverse)).reverse).asString

/-- Split a character list on a single separator character; like Python
`str.split(sep)`, the result always has one more group than separators. -/
def splitOnChar (sep : Char) : List Char → List (List Char)
  | [] => [[]]
  | c :: cs =>
    let r := splitOnChar sep cs
    if c.toNat == sep.toNat then [] :: r
    else
      match r with
      | g :: gs => (c :: g) :: gs
      | [] => [[c]]

/-- Does the first character list start with the second? -/
def startsWithChars : List Char → List Char → Bool
  | _, [] => true
  | [], _ :: _ => false
  | c :: cs, p :: ps => c.toNat == p.toNat && startsWithChars cs ps

/-- Python `str.startswith(pat)`. -/
def pyStartsWith (s pat : String) : Bool :=
  startsWithChars s.toList pat.toList

/-- Parse a non-empty all-digit character list as a natural number, the way
`strptime` reads a numeric field; `none` on anything else. -/
def digitsToNat? (cs : List Char) : Option Nat :=
  if cs ≠ [] ∧ cs.all (fun c => 48 ≤ c.toNat ∧ c.toNat ≤ 57) then
    some (cs.foldl (fun n c => n * 10 + (c.toNat - 48)) 0)
  else none

/-! ### Dates (`datetime.strptime` with the two fixed formats) -/

/-- A calendar date, the result of Python `datetime.date()`. -/
structure Date where
  year : Nat
  month : Nat
  day : Nat
deriving DecidableEq, Repr

/-- Python `date < date` comparison: lexicographic on (year, month, day). -/
def Date.before (a b : Date) : Bool :=
  a.year < b.year ||
    (a.year == b.year &&
      (a.month < b.month || (a.month == b.month && a.day < b.day)))

/-- Gregorian leap-year rule, as validated by Python `datetime`. -/
def isLeapYear (y : Nat) : Bool :=
  (y % 4 == 0 && y % 100 != 0) || (y % 400 == 0)

/-- Number of days in a month, as validated by Python `datetime`. -/
def daysInMonth (y m : Nat) : Nat :=
  if m == 2 then (if isLeapYear y then 29 else 28)
  else if m == 4 || m == 6 || m == 9 || m == 11 then 30
  else 31

/-- Validity of the time-of-day part `HH:MM:SS.ffffffZ` accepted by
`strptime` with format `%H:%M:%S.%fZ` (hours < 24, minutes < 60, seconds up
to 61 for leap seconds, 1 to 6 fractional digits, then the literal `Z`). -/
def validTimePart (t : List Char) : Bool :=
  match splitOnChar ':' t with
  | [hs, mins, rest] =>
    match splitOnChar '.' rest with
    | [ss, fz] =>
      match digitsToNat? hs, digitsToNat? mins, digitsToNat? ss with
      | some h, some mi, some s =>
        h < 24 && mi < 60 && s < 62 &&
          (match fz.getLast? with
           | some z =>
             z.toNat == 90 &&
               (let fr := fz.dropLast
                decide (1 ≤ fr.length) && fr.length ≤ 6 &&
                  (digitsToNat? fr).isSome)
           | none => false)
      | _, _, _ => false
    | _ => false
  | _ => false

/-- `TransactionManager._timestamp_to_date`: parse a timestamp with
`strptime(timestamp, "%Y-%m-%dT%H:%M:%S.%fZ")` and keep the date part.
`none` models the `ValueError` raised on a string not matching the format. -/
def _timestamp_to_date (timestamp : String) : Option Date :=
  match splitOnChar 'T' timestamp.toList with
  | [datePart, timePart] =>
    match splitOnChar '-' datePart with
    | [ys, ms, ds] => do
      let y ← digitsToNat? ys
      let m ← digitsToNat? ms
      let d ← digitsToNat? ds
      if 1 ≤ m ∧ m ≤ 12 ∧ 1 ≤ d ∧ d ≤ daysInMonth y m ∧ validTimePart timePart
      then some ⟨y, m, d⟩ else none
    | _ => none
  | _ => none

/-- `TransactionManager._str_to_date`: parse a date with
`strptime(str_date, "%Y-%m-%d")`.  `none` models the raised `ValueError`. -/
def _str_to_date (str_date : String) : Option Date :=
  match splitOnChar '-' str_date.toList with
  | [ys, ms, ds] => do
    let y ← digitsToNat? ys
    let m ← digitsToNat? ms
    let d ← digitsToNat? ds
    if 1 ≤ m ∧ m ≤ 12 ∧ 1 ≤ d ∧ d ≤ daysInMonth y m
    then some ⟨y, m, d⟩ else none
  | _ => none

/-! ### Redis values and the shared decoding utility -/

/-- A scalar value stored in a Redis hash field: a raw byte string, a text
string, or a number.  Redis returns bytes; the decoders must handle the
non-byte cases because the Python code tests `isinstance(value, bytes)`. -/
inductive RVal where
  | bytes (b : List Nat)
  | str (s : String)
  | num (n : Int)
deriving DecidableEq, Repr

/-- Decode a byte sequence as UTF-8; models Python `bytes.decode("utf-8")`,
with `none` standing for the raised `UnicodeDecodeError`. -/
def utf8Decode : List Nat → Option (List Char)
  | [] => some []
  | b :: rest =>
    if b < 0x80 then
      (utf8Decode rest).map (fun cs => Char.ofNat b :: cs)
    else if b < 0xC2 then none
    else if b < 0xE0 then
      match rest with
      | b1 :: rest1 =>
        if 0x80 ≤ b1 ∧ b1 < 0xC0 then
          (utf8Decode rest1).map
            (fun cs => Char.ofNat ((b - 0xC0) * 0x40 + (b1 - 0x80)) :: cs)
        else none
      | _ => none
    else if b < 0xF0 then
      match rest with
      | b1 :: b2 :: rest2 =>
        if 0x80 ≤ b1 ∧ b1 < 0xC0 ∧ 0x80 ≤ b2 ∧ b2 < 0xC0 then
          let c := (b - 0xE0) * 0x1000 + (b1 - 0x80) * 0x40 + (b2 - 0x80)
          if 0x800 ≤ c ∧ ¬ (0xD800 ≤ c ∧ c ≤ 0xDFFF) then
            (utf8Decode rest2).map (fun cs => Char.ofNat c :: cs)
          else none
        else none
      | _ => none
    else if b < 0xF5 then
      match rest with
      | b1 :: b2 :: b3 :: rest3 =>
        if 0x80 ≤ b1 ∧ b1 < 0xC0 ∧ 0x80 ≤ b2 ∧ b2 < 0xC0 ∧
           0x80 ≤ b3 ∧ b3 < 0xC0 then
          let c := (b - 0xF0) * 0x40000 + (b1 - 0x80) * 0x1000 +
                   (b2 - 0x80) * 0x40 + (b3 - 0x80)
          if 0x10000 ≤ c ∧ c ≤ 0x10FFFF then
            (utf8Decode rest3).map (fun cs => Char.ofNat c :: cs)
          else none
        else none
      | _ => none
    else none

/-- Decode a byte sequence to a Lean `String` (Python `bytes.decode("utf-8")`). -/
def utf8DecodeString (b : List Nat) : Option String :=
  (utf8Decode b).map List.asString

/-- Elementwise traversal of a list under `Option`: the abort-on-raise
evaluation of a Python comprehension, producing one output per input. -/
def mapOption {α β : Type} (f : α → Option β) : List α → Option (List β)
  | [] => some []
  | x :: xs => do
    let y ← f x
    let ys ← mapOption f xs
    pure (y :: ys)

/-- `redis_to_json` from `utils/format_redis_json.py`: the dict comprehension
decoding every byte key to text and every byte value to text, passing
non-byte values through unchanged.  A raised decode error aborts the whole
comprehension, hence the `Option` result. -/
def redis_to_json (transaction_data : List (List Nat × RVal)) :
    Option (List (String × RVal)) :=
  mapOption
    (fun e => do
      let k ← utf8DecodeString e.1
      let v ← match e.2 with
        | RVal.bytes b => (utf8DecodeString b).map RVal.str
        | v => some v
      pure (k, v))
    transaction_data

/-- `TransactionManager._redis_to_json`: the manager's private copy of the
same dict comprehension, embedded from `payment_transaction.py` lines 21-27. -/
def _redis_to_json (transactions : List (List Nat × RVal)) :
    Option (List (String × RVal)) :=
  mapOption
    (fun e => do
      let k ← utf8DecodeString e.1
      let v ← match e.2 with
        | RVal.bytes b => (utf8DecodeString b).map RVal.str
        | v => some v
      pure (k, v))
    transactions

/-- The transform applied to a single mapping entry: decode the byte key,
decode a byte value, pass any other value through unchanged. -/
def decodeEntry (e : List Nat × RVal) : Option (String × RVal) := do
  let k ← utf8DecodeString e.1
  let v ← match e.2 with
    | RVal.bytes b => (utf8DecodeString b).map RVal.str
    | v => some v
  pure (k, v)

/-! ### The store and the manager's operations -/

/-- The Redis database state: an association list from keys to flat
field-mappings (hash fields are byte-string names with `RVal` values). -/
structure RedisState where
  kv : List (String × List (List Nat × RVal))
deriving DecidableEq

/-- `self.r.keys()`: every key currently in the store. -/
def RedisState.allKeys (st : RedisState) : List String :=
  st.kv.map Prod.fst

/-- `TransactionManager.get_transactions_from_redis`: list all keys and keep
those starting with `request:mvola:`.  The function always reaches its
`return transaction_list` statement, so the result is always `some` list. -/
def get_transactions_from_redis (st : RedisState) : Option (List String) :=
  let transactions := st.allKeys
  let transaction_list :=
    transactions.filter (fun t => pyStartsWith t "request:mvola:")
  some transaction_list

/-- pandas `DataFrame.drop_duplicates` on the extracted columns: keep the
first occurrence of each row, preserving order. -/
def drop_duplicates {α : Type} [DecidableEq α] (l : List α) : List α :=
  l.foldl (fun acc x => if x ∈ acc then acc else acc ++ [x]) []

/-- `TransactionManager._process_key_transactions`: rows of the `key` and
`date` columns; deduplicate, strip each key, parse each date, keep keys dated
strictly before the cutoff `2024-08-31`.  Any raised parse error is caught by
the surrounding `try` and turns the whole result into `[]`. -/
def _process_key_transactions (df : List (String × String)) : List String :=
  let grouped_df := drop_duplicates df
  let go : Option (List String) := do
    let cutoff_date ← _str_to_date "2024-08-31"
    grouped_df.foldlM
      (fun filtered_keys row => do
        let key := pyStrip row.1
        let date ← _timestamp_to_date row.2
        pure (if Date.before date cutoff_date
              then filtered_keys ++ [key] else filtered_keys))
      []
  match go with
  | some filtered_keys => filtered_keys
  | none => []

/-- `TransactionManager._process_transaction_id`: rows of the
`transaction_id` and `obs` columns; deduplicate, keep rows whose stripped
`obs` equals `OK`, and return each kept id prefixed with `request:mvola:`. -/
def _process_transaction_id (df : List (String × String)) : List String :=
  let grouped_df := drop_duplicates df
  grouped_df.foldl
    (fun completed_transactions row =>
      if pyStrip row.2 == "OK"
      then completed_transactions ++ ["request:mvola:" ++ row.1]
      else completed_transactions)
    []

/-- The caller-supplied type tag of a CSV input (`csv_file['type']`); any tag
other than the two recognised ones falls through both `if` statements. -/
inductive CsvType where
  | key
  | transactionID
  | other
deriving DecidableEq

/-- A CSV input: `data` is the outcome of `pd.read_csv` on the file, `none`
modelling a raised read/parse error, `some df` the rows of the two columns the
processing routine will extract. -/
structure CsvFile where
  data : Option (List (String × String))
  type : CsvType
deriving DecidableEq

/-- `TransactionManager.get_transactions_from_csv`: read the CSV and dispatch
on the type tag; any exception is caught and converted to `some []`; an
unrecognised tag falls off the end of the function (Python `None`). -/
def get_transactions_from_csv (csv_file : CsvFile) : Option (List String) :=
  match csv_file.data with
  | none => some []
  | some df =>
    match csv_file.type with
    | CsvType.key => some (_process_key_transactions df)
    | CsvType.transactionID => some (_process_transaction_id df)
    | CsvType.other => none

/-- `TransactionManager.get_transactions_from_txt_file`: the input is the
outcome of opening and reading the file (`none` models a raised I/O error,
`some lines` the file lines).  On success each line is stripped and blank
lines are dropped; on error the function prints and falls off the end,
returning Python `None`. -/
def get_transactions_from_txt_file (txt_file : Option (List String)) :
    Option (List String) :=
  match txt_file with
  | some file_transaction =>
    some (file_transaction.foldl
      (fun transaction_list transaction =>
        let transactionID := pyStrip transaction
        if transactionID ≠ "" then transaction_list ++ [transactionID]
        else transaction_list)
      [])
  | none => none

/-- `TransactionManager.compare_transaction_and_delete`: build the three sets,
compute the intersection of the Redis set and the CSV set, and report it.  All
store reads and the bulk-delete pipeline are commented out in the source, so
the store is returned unchanged alongside the reported set. -/
def compare_transaction_and_delete (st : RedisState)
    (transaction_from_redis transaction_from_csv transaction_from_txt :
      List String) : RedisState × Finset String :=
  let redis_transaction_set := transaction_from_redis.toFinset
  let csv_transaction_set := transaction_from_csv.toFinset
  let txt_transaction_set := transaction_from_txt.toFinset
  let transactions_to_delete := redis_transaction_set ∩ csv_transaction_set
  (st, transactions_to_delete)

/-! ### Helper lemmas -/

/-- A left fold that conditionally appends one element per input is the
filter-map of its inputs appended to the accumulator. -/
theorem foldl_append_eq_filterMap {α β : Type} (f : List β → α → List β)
    (g : α → Option β)
    (hf : ∀ a x, f a x = match g x with | some y => a ++ [y] | none => a) :
    ∀ (l : List α) (acc : List β), l.foldl f acc = acc ++ l.filterMap g := by
  intro l
  induction l with
  | nil => intro acc; simp
  | cons x xs ih =>
    intro acc
    rw [List.foldl_cons, hf]
    cases hgx : g x with
    | none => simp [hgx, ih]
    | some y => simp [hgx, ih]

/-- Filter-mapping with strip-then-test equals strip-all-then-filter. -/
theorem filterMap_strip_eq (l : List String) :
    l.filterMap (fun t => if pyStrip t = "" then none else some (pyStrip t))
      = (l.map pyStrip).filter (fun s => !(s == "")) := by
  induction l with
  | nil => rfl
  | cons x xs ih =>
    by_cases h : pyStrip x = "" <;> simp [h, ih]

/-- The step of the key-dated fold, abbreviated for the lemmas below. -/
def keyStep (cutoff : Date) (filtered_keys : List String)
    (row : String × String) : Option (List String) := do
  let key := pyStrip row.1
  let date ← _timestamp_to_date row.2
  pure (if Date.before date cutoff then filtered_keys ++ [key]
        else filtered_keys)

/-- The selection a row of the key-dated fold contributes. -/
def keyPick (cutoff : Date) (row : String × String) : Option String :=
  match _timestamp_to_date row.2 with
  | some d => if Date.before d cutoff then some (pyStrip row.1) else none
  | none => none

/-- When every row's date parses, the key-dated fold succeeds and returns the
filter-map of the rows appended to the accumulator. -/
theorem key_fold_eq (cutoff : Date) :
    ∀ (l : List (String × String)) (acc : List String),
      (∀ row ∈ l, (_timestamp_to_date row.2).isSome) →
      l.foldlM (keyStep cutoff) acc = some (acc ++ l.filterMap (keyPick cutoff)) := by
  intro l
  induction l with
  | nil => intro acc _; simp
  | cons x xs ih =>
    intro acc hall
    have hx : (_timestamp_to_date x.2).isSome := hall x (List.mem_cons_self x xs)
    obtain ⟨d, hd⟩ := Option.isSome_iff_exists.mp hx
    have hrest : ∀ row ∈ xs, (_timestamp_to_date row.2).isSome :=
      fun row hrow => hall row (List.mem_cons_of_mem x hrow)
    rw [List.foldlM_cons]
    simp only [keyStep, hd, Option.pure_def, Option.bind_eq_bind,
      Option.some_bind]
    cases hb : Date.before d cutoff
    · rw [if_neg (by simp [hb])]
      rw [ih acc hrest]
      have hpick : keyPick cutoff x = none := by simp [keyPick, hd, hb]
      simp [List.filterMap_cons, hpick]
    · rw [if_pos (by simp [hb])]
      rw [ih (acc ++ [pyStrip x.1]) hrest]
      have hpick : keyPick cutoff x = some (pyStrip x.1) := by
        simp [keyPick, hd, hb]
      simp [List.filterMap_cons, hpick]

/-- If any row's date fails to parse, the key-dated fold aborts with `none`. -/
theorem key_fold_none (cutoff : Date) :
    ∀ (l : List (String × String)) (acc : List String) (row : String × String),
      row ∈ l → _timestamp_to_date row.2 = none →
      l.foldlM (keyStep cutoff) acc = none := by
  intro l
  induction l with
  | nil => intro acc row hrow _; exact absurd hrow (List.not_mem_nil row)
  | cons x xs ih =>
    intro acc row hrow hfail
    rw [List.foldlM_cons]
    cases hx : _timestamp_to_date x.2 with
    | none => simp [keyStep, hx]
    | some d =>
      have hrow' : row ∈ xs := by
        rcases List.mem_cons.mp hrow with h | h
        · exact absurd hfail (by rw [h, hx]; simp)
        · exact h
      simp only [keyStep, hx, Option.pure_def, Option.bind_eq_bind,
        Option.some_bind]
      exact ih _ row hrow' hfail

/-- The body of `_process_key_transactions` is the `keyStep` fold under the
parsed cutoff. -/
theorem process_key_transactions_eq_fold (df : List (String × String)) :
    _process_key_transactions df =
      match (drop_duplicates df).foldlM (keyStep ⟨2024, 8, 31⟩) [] with
      | some keys => keys
      | none => [] := by
  have hc : _str_to_date "2024-08-31" = some ⟨2024, 8, 31⟩ := by decide
  simp only [_process_key_transactions, hc, Option.some_bind]
  rfl

/-- A successful `mapOption` relates input and output elementwise. -/
theorem mapOption_forall2 {α β : Type} (f : α → Option β) :
    ∀ (l : List α) (out : List β), mapOption f l = some out →
      List.Forall₂ (fun x y => f x = some y) l out := by
  intro l
  induction l with
  | nil =>
    intro out h
    simp only [mapOption, Option.some.injEq] at h
    rw [← h]
    exact List.Forall₂.nil
  | cons x xs ih =>
    intro out h
    simp only [mapOption] at h
    cases hx : f x with
    | none => rw [hx] at h; simp at h
    | some y =>
      rw [hx] at h
      cases hxs : mapOption f xs with
      | none => rw [hxs] at h; simp at h
      | some ys =>
        rw [hxs] at h
        simp only [Option.pure_def, Option.bind_eq_bind, Option.some_bind,
          Option.some.injEq] at h
        rw [← h]
        exact List.Forall₂.cons hx (ih ys hxs)

/-- The per-entry transform inside `redis_to_json` is `decodeEntry`. -/
theorem redis_to_json_eq_mapOption (m : List (List Nat × RVal)) :
    redis_to_json m = mapOption decodeEntry m := rfl

/-! ### Claim theorems -/

/-- C1: for every three identifier collections, the set the reconciliation
routine reports for deletion is exactly the intersection of the store
identifiers and the CSV identifiers; the text-file collection never
influences the result; for store-set A,B,C, csv-set B,C,D, text-set C,E the
computed set is exactly B,C and neither D nor E is in it. -/
theorem C1_reconciliation_reports_store_inter_csv :
    (∀ (st : RedisState) (r c t : List String) (x : String),
       x ∈ (compare_transaction_and_delete st r c t).2 ↔ x ∈ r ∧ x ∈ c) ∧
    (∀ (st : RedisState) (r c t t' : List String),
       (compare_transaction_and_delete st r c t).2 =
         (compare_transaction_and_delete st r c t').2) ∧
    ((compare_transaction_and_delete ⟨[]⟩ ["A", "B", "C"] ["B", "C", "D"]
        ["C", "E"]).2 = {"B", "C"} ∧
     "D" ∉ (compare_transaction_and_delete ⟨[]⟩ ["A", "B", "C"] ["B", "C", "D"]
        ["C", "E"]).2 ∧
     "E" ∉ (compare_transaction_and_delete ⟨[]⟩ ["A", "B", "C"] ["B", "C", "D"]
        ["C", "E"]).2) := by
  refine ⟨?_, ?_, ?_, ?_, ?_⟩
  · intro st r c t x
    simp [compare_transaction_and_delete, List.mem_toFinset, Finset.mem_inter]
  · intro st r c t t'
    rfl
  · decide
  · decide
  · decide

/-- C1 witness: the membership characterisation applied to identifier B on
the concrete three collections of the claim. -/
theorem C1_witness :
    "B" ∈ (compare_transaction_and_delete ⟨[]⟩ ["A", "B", "C"] ["B", "C", "D"]
        ["C", "E"]).2 ↔
      "B" ∈ ["A", "B", "C"] ∧ "B" ∈ ["B", "C", "D"] :=
  C1_reconciliation_reports_store_inter_csv.1 ⟨[]⟩ ["A", "B", "C"]
    ["B", "C", "D"] ["C", "E"] "B"

/-- C2: `compare_transaction_and_delete` never modifies the store: the store
state after the call equals the store state before it, for every input,
because the bulk-delete step is commented out. -/
theorem C2_compare_preserves_store (st : RedisState) (r c t : List String) :
    (compare_transaction_and_delete st r c t).1 = st := rfl

/-- C3: key-dated ingestion deduplicates the rows, parses each date with the
`%Y-%m-%dT%H:%M:%S.%fZ` format, and returns exactly the (stripped) keys whose
date is strictly before the cutoff 2024-08-31; a row dated 2024-08-30 is
included and one dated 2024-08-31 is excluded. -/
theorem C3_process_key_transactions_spec (df : List (String × String))
    (hparse : ∀ row ∈ drop_duplicates df, (_timestamp_to_date row.2).isSome) :
    _process_key_transactions df =
      (drop_duplicates df).filterMap (keyPick ⟨2024, 8, 31⟩) ∧
    _str_to_date "2024-08-31" = some ⟨2024, 8, 31⟩ ∧
    _process_key_transactions [("k", "2024-08-30T00:00:00.000000Z")] = ["k"] ∧
    _process_key_transactions [("k", "2024-08-31T00:00:00.000000Z")] = [] := by
  refine ⟨?_, by decide, by decide, by decide⟩
  rw [process_key_transactions_eq_fold]
  rw [key_fold_eq ⟨2024, 8, 31⟩ (drop_duplicates df) [] hparse]
  simp

/-- C3 witness: the characterisation applied to a two-row input whose dates
both parse, one before and one after the cutoff. -/
theorem C3_witness :
    _process_key_transactions
        [("a", "2024-08-30T00:00:00.000000Z"),
         ("b", "2025-01-01T00:00:00.000000Z")] =
      (drop_duplicates
        [("a", "2024-08-30T00:00:00.000000Z"),
         ("b", "2025-01-01T00:00:00.000000Z")]).filterMap
        (keyPick ⟨2024, 8, 31⟩) ∧
    _str_to_date "2024-08-31" = some ⟨2024, 8, 31⟩ ∧
    _process_key_transactions [("k", "2024-08-30T00:00:00.000000Z")] = ["k"] ∧
    _process_key_transactions [("k", "2024-08-31T00:00:00.000000Z")] = [] :=
  C3_process_key_transactions_spec
    [("a", "2024-08-30T00:00:00.000000Z"),
     ("b", "2025-01-01T00:00:00.000000Z")] (by decide)

/-- C4: transaction-ID ingestion deduplicates the rows and returns
`request:mvola:` followed by the id for exactly those rows whose stripped
`obs` equals `OK` case-sensitively; obs " OK " is included, obs "ok" is
excluded. -/
theorem C4_process_transaction_id_spec (df : List (String × String)) :
    _process_transaction_id df =
      (drop_duplicates df).filterMap
        (fun row => if pyStrip row.2 == "OK"
                    then some ("request:mvola:" ++ row.1) else none) ∧
    _process_transaction_id [("t", " OK ")] = ["request:mvola:t"] ∧
    _process_transaction_id [("t", "ok")] = [] := by
  refine ⟨?_, by decide, by decide⟩
  have hfold := foldl_append_eq_filterMap
    (fun completed_transactions row =>
      if pyStrip row.2 == "OK"
      then completed_transactions ++ ["request:mvola:" ++ row.1]
      else completed_transactions)
    (fun row => if pyStrip row.2 == "OK"
                then some ("request:mvola:" ++ row.1) else none)
    (by intro a x; cases h : pyStrip x.2 == "OK" <;> simp [h])
    (drop_duplicates df) []
  simpa [_process_transaction_id] using hfold

/-- C5: the listing operation returns only identifiers starting with the
configured prefix `request:mvola:`; a key without it is never included. -/
theorem C5_redis_listing_only_prefixed (st : RedisState) (l : List String)
    (h : get_transactions_from_redis st = some l) :
    ∀ k ∈ l, pyStartsWith k "request:mvola:" = true := by
  intro k hk
  have hl : l = st.allKeys.filter (fun t => pyStartsWith t "request:mvola:") := by
    simpa [get_transactions_from_redis] using h.symm
  rw [hl] at hk
  exact (List.mem_filter.mp hk).2

/-- C5 witness: applied to a store holding one matching and one
non-matching key. -/
theorem C5_witness : pyStartsWith "request:mvola:1" "request:mvola:" = true :=
  C5_redis_listing_only_prefixed ⟨[("request:mvola:1", []), ("other", [])]⟩
    ["request:mvola:1"] (by decide) "request:mvola:1" (by decide)

/-- C6 counterexample: on a store whose only key lacks the prefix, the
listing returns the empty list, not the no-value sentinel the claim
asserts. -/
theorem C6_counterexample :
    get_transactions_from_redis ⟨[("foo", [])]⟩ = some [] ∧
    get_transactions_from_redis ⟨[("foo", [])]⟩ ≠ none := by
  exact ⟨by decide, by decide⟩

/-- C6 amended: when the prefix-filtered key set is empty, the listing
operation returns the empty list, the same list shape as any other result;
there is no distinct no-value sentinel. -/
theorem C6_amended_empty_filter_returns_empty_list (st : RedisState)
    (h : st.allKeys.filter (fun t => pyStartsWith t "request:mvola:") = []) :
    get_transactions_from_redis st = some [] := by
  simp [get_transactions_from_redis, h]

/-- C6 witness: the amended statement applied to the concrete
single-non-matching-key store. -/
theorem C6_witness : get_transactions_from_redis ⟨[("foo", [])]⟩ = some [] :=
  C6_amended_empty_filter_returns_empty_list ⟨[("foo", [])]⟩ (by decide)

/-- C7: CSV ingestion converts every caught error into the empty list: a
read error yields `[]`, a date-parse failure inside key processing yields
`[]`, and a well-formed file with zero rows also yields `[]`, so the caller
cannot distinguish the two. -/
theorem C7_csv_ingestion_errors_yield_empty (csv : CsvFile) :
    (csv.data = none → get_transactions_from_csv csv = some []) ∧
    (∀ (df : List (String × String)) (row : String × String),
      csv.data = some df → csv.type = CsvType.key →
      row ∈ drop_duplicates df → _timestamp_to_date row.2 = none →
      get_transactions_from_csv csv = some []) ∧
    get_transactions_from_csv ⟨some [], CsvType.key⟩ = some [] := by
  refine ⟨?_, ?_, by decide⟩
  · intro h
    simp [get_transactions_from_csv, h]
  · intro df row hdata htype hrow hfail
    have hkeys : _process_key_transactions df = [] := by
      rw [process_key_transactions_eq_fold]
      rw [key_fold_none ⟨2024, 8, 31⟩ (drop_duplicates df) [] row hrow hfail]
    simp [get_transactions_from_csv, hdata, htype, hkeys]

/-- C7 witness: a read error on a key-typed CSV yields the empty list. -/
theorem C7_witness : get_transactions_from_csv ⟨none, CsvType.key⟩ = some [] :=
  (C7_csv_ingestion_errors_yield_empty ⟨none, CsvType.key⟩).1 rfl

/-- C8: plain-text ingestion returns, in file order, each line stripped of
surrounding whitespace, with blank lines dropped and no deduplication: a
line appearing twice appears twice in the result. -/
theorem C8_txt_ingestion_spec (lines : List String) :
    get_transactions_from_txt_file (some lines) =
      some ((lines.map pyStrip).filter (fun s => !(s == ""))) ∧
    get_transactions_from_txt_file
        (some ["request:mvola:9", "request:mvola:9"]) =
      some ["request:mvola:9", "request:mvola:9"] := by
  constructor
  · have hfold := foldl_append_eq_filterMap
      (fun transaction_list transaction =>
        let transactionID := pyStrip transaction
        if transactionID ≠ "" then transaction_list ++ [transactionID]
        else transaction_list)
      (fun t => if pyStrip t = "" then none else some (pyStrip t))
      (by intro a x; by_cases h : pyStrip x = "" <;> simp [h])
      lines []
    have hdef : get_transactions_from_txt_file (some lines) =
        some (lines.foldl
          (fun transaction_list transaction =>
            let transactionID := pyStrip transaction
            if transactionID ≠ "" then transaction_list ++ [transactionID]
            else transaction_list)
          []) := rfl
    rw [hdef, hfold, List.nil_append, filterMap_strip_eq]
  · decide

/-- C9: the shared utility `redis_to_json` and the manager's private
`_redis_to_json` compute the same function; the result maps each entry to
its decoded form (`decodeEntry`: byte keys decoded to text, byte values
decoded to text, other values passed through), with no entries added or
removed. -/
theorem C9_redis_to_json_equivalence (m : List (List Nat × RVal)) :
    _redis_to_json m = redis_to_json m ∧
    redis_to_json m = mapOption decodeEntry m ∧
    (∀ out, redis_to_json m = some out →
      List.Forall₂ (fun e o => decodeEntry e = some o) m out) ∧
    (∀ out, redis_to_json m = some out → out.length = m.length) := by
  refine ⟨rfl, rfl, ?_, ?_⟩
  · intro out h
    exact mapOption_forall2 decodeEntry m out h
  · intro out h
    exact (mapOption_forall2 decodeEntry m out h).length_eq.symm

/-- C9 witness: the elementwise characterisation applied to a mapping with
one byte value and one numeric value. -/
theorem C9_witness :
    List.Forall₂ (fun e o => decodeEntry e = some o)
      [([104, 105], RVal.bytes [104, 105]), ([104], RVal.num 5)]
      [("hi", RVal.str "hi"), ("h", RVal.num 5)] :=
  (C9_redis_to_json_equivalence
      [([104, 105], RVal.bytes [104, 105]), ([104], RVal.num 5)]).2.2.1
    [("hi", RVal.str "hi"), ("h", RVal.num 5)] (by decide)

/-- C10: on its error path the text-file reader returns Python `None`
(embedded `none`), while CSV ingestion's error path returns the empty list;
the two error results are distinguishable and the former is not a list. -/
theorem C10_txt_error_none_csv_error_empty :
    get_transactions_from_txt_file none = none ∧
    (∀ ty : CsvType, get_transactions_from_csv ⟨none, ty⟩ = some []) ∧
    (none : Option (List String)) ≠ some [] := by
  exact ⟨rfl, fun ty => rfl, by decide⟩

/-- C10 witness: the text-file error result at the concrete error input. -/
theorem C10_witness : get_transactions_from_txt_file none = none :=
  C10_txt_error_none_csv_error_empty.1
